import Mathlib

/-!
Shallow embedding of the amdgpu telemetry tool (src/main.rs, src/usage.rs,
src/errors.rs, src/serialize.rs) and proofs about it.

Modelling conventions:
* Rust f64/f32 values are modelled as exact rationals (ℚ).  All numeric
  claims settled here evaluate the source only at inputs whose f64
  computations are exact (small integers, divisions by powers of two, or
  quotients with at most two decimal digits), so the ℚ model agrees with
  IEEE semantics at every point a theorem touches.
* Rust format specifiers are modelled explicitly: a precision format
  rounds the scaled value half-to-even (as Rust float Display does for
  exactly representable ties), f64::round rounds half away from zero.
* Filesystem state is a finite, explicit structure: directory listings
  (whose items may themselves be retrieval errors, as with the Rust
  ReadDir iterator), file reads tagged with an IO error kind on failure,
  and the sets of paths for which is_dir / exists return true.
* Paths are strings; Path::join is string concatenation with a slash.
-/

namespace AmdGpu

/-- Round a rational to the nearest integer, ties to even: the rounding
Rust uses when printing a float with a fixed precision. -/
def rne (q : ℚ) : ℤ :=
  let f := Rat.floor q
  let r := q - f
  if r < 1/2 then f
  else if 1/2 < r then f + 1
  else if f % 2 = 0 then f else f + 1

/-- Round a rational half away from zero: the behaviour of f64::round. -/
def roundAwayFromZero (q : ℚ) : ℤ :=
  if q < 0 then -(Rat.floor (-q + 1/2)) else Rat.floor (q + 1/2)

/-- The Rust cast expression (x as u64) applied to a mathematical
integer: saturating at the ends of the u64 range. -/
def u64cast (z : ℤ) : ℕ :=
  min (max z 0).toNat (2 ^ 64 - 1)

/-- The Rust fixed-precision float format (a value printed with a
precision of prec digits): scale by 10 ^ prec, round ties to even, and
print with the fraction part zero-padded.  Models the format specifiers
with precisions 0, 1 and 2 used in usage.rs and main.rs. -/
def fmtFixed (prec : ℕ) (q : ℚ) : String :=
  let r := rne (q * (10 : ℚ) ^ prec)
  if prec = 0 then toString r
  else
    let sgn := if r < 0 then "-" else ""
    let a := r.natAbs
    let ipart := a / 10 ^ prec
    let fpart := a % 10 ^ prec
    let fdigits := toString fpart
    let fpadded := String.mk (List.replicate (prec - fdigits.length) '0') ++ fdigits
    sgn ++ toString ipart ++ "." ++ fpadded

example : fmtFixed 1 (317/5) = "63.4" := by with_unfolding_all rfl
example : fmtFixed 2 1 = "1.00" := by with_unfolding_all rfl
example : fmtFixed 0 (1/2) = "0" := by with_unfolding_all rfl
example : fmtFixed 1 (27/100 * 100) = "27.0" := by with_unfolding_all rfl

/-! ## usage.rs -/

/-- Units of measurement for formatting (usage.rs, enum Units). -/
inductive Units where
  | Temperature
  | Memory
  | Gpu
  | Power
  | Frequency
deriving DecidableEq, Repr

/-- Generic scale-and-suffix formatter (usage.rs, fn format_scaled):
walk the table in order; at the first threshold the value meets or
exceeds, print value / threshold with two decimals and the suffix;
if no threshold matches, print the value with zero decimals, bare. -/
def format_scaled (value : ℚ) : List (String × ℚ) → String
  | [] => fmtFixed 0 value
  | (sfx, threshold) :: rest =>
    if threshold ≤ value then fmtFixed 2 (value / threshold) ++ " " ++ sfx
    else format_scaled value rest

/-- usage.rs, const BYTE_SUFFIXES (thresholds are powers of 1024). -/
def BYTE_SUFFIXES : List (String × ℚ) :=
  [("TB", 1099511627776), ("GB", 1073741824), ("MB", 1048576), ("KB", 1024), ("B", 1)]

/-- usage.rs, const HERTZ_SUFFIXES (thresholds are powers of 1000). -/
def HERTZ_SUFFIXES : List (String × ℚ) :=
  [("GHz", 1000000000), ("MHz", 1000000), ("kHz", 1000), ("Hz", 1)]

/-- usage.rs, fn format_units. -/
def format_units (unit : Units) (value : ℚ) : String :=
  match unit with
  | .Temperature => fmtFixed 1 value ++ " °C"
  | .Gpu => fmtFixed 1 (value * 100) ++ "%"
  | .Power => fmtFixed 1 value ++ " W"
  | .Memory => format_scaled value BYTE_SUFFIXES
  | .Frequency => format_scaled value HERTZ_SUFFIXES

example : format_units .Memory 512 = "512.00 B" := by with_unfolding_all rfl
example : format_units .Memory 1048576 = "1.00 MB" := by with_unfolding_all rfl
example : format_units .Memory 1024 = "1.00 KB" := by with_unfolding_all rfl
example : format_units .Frequency 2500000000 = "2.50 GHz" := by with_unfolding_all rfl
example : format_units .Temperature (317/5) = "63.4 °C" := by with_unfolding_all rfl

/-! ## Number parsing (the FromStr instances used through read_and_parse)

The integer parsers follow the Rust FromStr grammar for u64 and i32: an
optional sign, then one or more ASCII digits, with an overflow check.
The f32 parser covers the plain decimal-literal fragment of the Rust
float grammar (optional sign, digits, optional fractional part) and
yields the exact rational value; exponent forms and the textual
infinity/NaN spellings are omitted, and the rounding of the decimal to
the nearest f32 is elided — no theorem below depends on a float read
beyond values that are exact in that fragment. -/

/-- Value of a list of ASCII digits, most significant first. -/
def digitsVal (cs : List Char) : ℕ :=
  cs.foldl (fun a c => a * 10 + (c.toNat - 48)) 0

/-- Parse a nonempty all-digit list of characters. -/
def parseNatDigits (cs : List Char) : Option ℕ :=
  if cs ≠ [] ∧ cs.all (fun c => c.isDigit) then some (digitsVal cs) else none

/-- u64::from_str on the trimmed file content. -/
def parseU64 (s : String) : Option ℕ :=
  let cs := match s.data with
    | '+' :: rest => rest
    | cs => cs
  match parseNatDigits cs with
  | some n => if n < 2 ^ 64 then some n else none
  | none => none

/-- i32::from_str on the trimmed file content. -/
def parseI32 (s : String) : Option ℤ :=
  match s.data with
  | '-' :: rest =>
    match parseNatDigits rest with
    | some n => if (n : ℤ) ≤ 2 ^ 31 then some (-(n : ℤ)) else none
    | none => none
  | '+' :: rest =>
    match parseNatDigits rest with
    | some n => if (n : ℤ) < 2 ^ 31 then some (n : ℤ) else none
    | none => none
  | cs =>
    match parseNatDigits cs with
    | some n => if (n : ℤ) < 2 ^ 31 then some (n : ℤ) else none
    | none => none

/-- f32::from_str, restricted to plain decimal literals (see above). -/
def parseF32 (s : String) : Option ℚ :=
  let signed : ℚ × List Char := match s.data with
    | '-' :: rest => (-1, rest)
    | '+' :: rest => (1, rest)
    | cs => (1, cs)
  let sgn := signed.1
  let cs := signed.2
  let ip := cs.takeWhile (fun c => c.isDigit)
  let rest := cs.dropWhile (fun c => c.isDigit)
  match rest with
  | [] => if ip = [] then none else some (sgn * digitsVal ip)
  | '.' :: frac =>
    if frac.all (fun c => c.isDigit) ∧ (ip ≠ [] ∨ frac ≠ []) then
      some (sgn * ((digitsVal ip : ℚ) + (digitsVal frac : ℚ) / (10 : ℚ) ^ frac.length))
    else none
  | _ => none

example : parseU64 "2500000000" = some 2500000000 := by with_unfolding_all rfl
example : parseI32 "-63400" = some (-63400) := by with_unfolding_all rfl
example : parseF32 "27.3" = some (273/10) := by with_unfolding_all rfl
example : parseF32 "abc" = none := by with_unfolding_all rfl

/-! ## Errors and the filesystem model

Rust io::Error values are abstracted to their kind; the two kinds the
spec distinguishes (a missing path and a permission failure) are kept
apart, everything else is otherherError.  A Box dyn Error value is one of:
a propagated IO error, a numeric parse error (carrying the message its
Display produces), or the GpuInfoError of main.rs / errors.rs. -/

/-- The kind of an io::Error. -/
inductive IOKind where
  | notFound
  | permissionDenied
  | otherError
deriving DecidableEq, Repr

/-- A dynamic error as propagated through the ? operator in main.rs. -/
inductive Err where
  | ioError (k : IOKind)
  | parseError (msg : String)
  | gpuInfoError (msg : String)
deriving DecidableEq, Repr

/-- What Display produces for each error (used by the error lines). -/
def errMsg : Err → String
  | .ioError .notFound => "No such file or directory (os error 2)"
  | .ioError .permissionDenied => "Permission denied (os error 13)"
  | .ioError .otherError => "I/O error"
  | .parseError m => m
  | .gpuInfoError m => m

/-- A finite snapshot of the parts of the filesystem the program touches.
A directory listing may fail as a whole, and each item of a successful
listing may itself be a retrieval error (as with the ReadDir iterator,
whose items are io::Result values).  A path absent from dirListings or
fileContents behaves as missing (NotFound). -/
structure FS where
  dirListings : List (String × Except IOKind (List (Except IOKind String)))
  fileContents : List (String × Except IOKind String)
  dirPaths : List String
  existingPaths : List String

/-- fs::read_dir. -/
def FS.read_dir (fs : FS) (p : String) : Except IOKind (List (Except IOKind String)) :=
  match fs.dirListings.lookup p with
  | some r => r
  | none => .error .notFound

/-- fs::read_to_string. -/
def FS.read_to_string (fs : FS) (p : String) : Except IOKind String :=
  match fs.fileContents.lookup p with
  | some r => r
  | none => .error .notFound

/-- Path::is_dir (false on any failure). -/
def FS.is_dir (fs : FS) (p : String) : Bool := fs.dirPaths.contains p

/-- Path::exists (false on any failure). -/
def FS.path_exists (fs : FS) (p : String) : Bool := fs.existingPaths.contains p

/-- Path::join for the string paths of this model. -/
def pathJoin (p c : String) : String := p ++ "/" ++ c

/-! ## main.rs -/

/-- The fixed top-level device-class directory scanned by discovery. -/
def drmDir : String := "/sys/class/drm"

/-- The vendor check of detect_amd_gpus: the device/vendor file under the
entry is readable and its trimmed content is the AMD vendor id. -/
def vendorOk (fs : FS) (path : String) : Bool :=
  match fs.read_to_string (pathJoin path "device/vendor") with
  | .ok vendor => vendor.trim == "0x1002"
  | .error _ => false

/-- The loop body of detect_amd_gpus over the listed entries: an entry
that fails to be retrieved propagates its IO error through ?; a retrieved
entry is kept exactly when its name starts with card and the vendor check
passes. -/
def detectEntries (fs : FS) : List (Except IOKind String) → Except Err (List String)
  | [] => .ok []
  | .error k :: _ => .error (.ioError k)
  | .ok name :: rest =>
    let path := pathJoin drmDir name
    let keep := name.startsWith "card" && vendorOk fs path
    match detectEntries fs rest with
    | .error e => .error e
    | .ok amd_gpus => .ok (if keep then path :: amd_gpus else amd_gpus)

/-- main.rs, fn detect_amd_gpus. -/
def detect_amd_gpus (fs : FS) : Except Err (List String) :=
  match fs.read_dir drmDir with
  | .error k => .error (.ioError k)
  | .ok entries => detectEntries fs entries

/-- The acceptance test of find_hwmon_dir for one hwmon entry: it is a
directory and contains a file named temp1_input. -/
def hwmonQualifies (fs : FS) (hwmon_path : String) : Bool :=
  fs.is_dir hwmon_path && fs.path_exists (pathJoin hwmon_path "temp1_input")

/-- The loop body of find_hwmon_dir: first qualifying entry wins; an
entry that fails to be retrieved propagates its IO error; an exhausted
listing yields the GpuInfoError of main.rs. -/
def findEntries (fs : FS) (hwmon_base : String) :
    List (Except IOKind String) → Except Err String
  | [] => .error (.gpuInfoError "No hwmon directory found")
  | .error k :: _ => .error (.ioError k)
  | .ok name :: rest =>
    let hwmon_path := pathJoin hwmon_base name
    if hwmonQualifies fs hwmon_path then .ok hwmon_path
    else findEntries fs hwmon_base rest

/-- main.rs, fn find_hwmon_dir. -/
def find_hwmon_dir (fs : FS) (gpu_path : String) : Except Err String :=
  let hwmon_base := pathJoin gpu_path "device/hwmon"
  match fs.read_dir hwmon_base with
  | .error k => .error (.ioError k)
  | .ok entries => findEntries fs hwmon_base entries

/-- main.rs, fn read_and_parse: read the file, trim, parse; the parse
function and the message its error Displays stand for the FromStr
instance the Rust code instantiates T with. -/
def read_and_parse (fs : FS) (parse : String → Option α) (perr : String)
    (path : String) : Except Err α :=
  match fs.read_to_string path with
  | .error k => .error (.ioError k)
  | .ok s =>
    match parse s.trim with
    | some v => .ok v
    | none => .error (.parseError perr)

/-- main.rs, the units table of format_frequency. -/
def freqUnits : List String := ["Hz", "KHz", "MHz", "GHz"]

/-- The while loop of format_frequency.  The guard caps unit_index at
freqUnits.length - 1 = 3, so the loop runs at most three iterations; the
fuel argument, always called with that bound, makes the recursion
structural without changing the computed result. -/
def format_frequency_loop : ℕ → ℚ → ℕ → ℚ × ℕ
  | 0, value, unit_index => (value, unit_index)
  | fuel + 1, value, unit_index =>
    if 1000 ≤ value ∧ unit_index < freqUnits.length - 1 then
      format_frequency_loop fuel (value / 1000) (unit_index + 1)
    else (value, unit_index)

/-- main.rs, fn format_frequency: scale into the highest unit not above
the value, round half away from zero, cast to u64 and print. -/
def format_frequency (hz : ℕ) : String :=
  let r := format_frequency_loop (freqUnits.length - 1) (hz : ℚ) 0
  toString (u64cast (roundAwayFromZero r.1)) ++ " " ++ freqUnits.getD r.2 ""

example : format_frequency 2500000000 = "3 GHz" := by with_unfolding_all rfl
example : format_frequency 257000000 = "257 MHz" := by with_unfolding_all rfl
example : format_frequency 999 = "999 Hz" := by with_unfolding_all rfl

/-- main.rs, struct GpuData. -/
structure GpuData where
  temperature : String
  core_clock : String
  power_usage : String
  gpu_load : String
  vram_used : String
  vram_total : String
deriving DecidableEq, Repr

/-- The temperature read of read_gpu_data: temp1_input under the hwmon
directory, parsed as i32 (millidegrees Celsius). -/
def readTemp (fs : FS) (hwmon_dir : String) : Except Err ℤ :=
  read_and_parse fs parseI32 "invalid digit found in string"
    (pathJoin hwmon_dir "temp1_input")

/-- The core-clock read of read_gpu_data: freq1_input under the hwmon
directory, parsed as u64 (Hz). -/
def readFreq (fs : FS) (hwmon_dir : String) : Except Err ℕ :=
  read_and_parse fs parseU64 "invalid digit found in string"
    (pathJoin hwmon_dir "freq1_input")

/-- The power read of read_gpu_data: power1_average under the hwmon
directory, parsed as u64 (microwatts). -/
def readPower (fs : FS) (hwmon_dir : String) : Except Err ℕ :=
  read_and_parse fs parseU64 "invalid digit found in string"
    (pathJoin hwmon_dir "power1_average")

/-- The utilization read of read_gpu_data: device/gpu_busy_percent under
the device directory, parsed as f32 (a percentage). -/
def readLoad (fs : FS) (gpu_path : String) : Except Err ℚ :=
  read_and_parse fs parseF32 "invalid float literal"
    (pathJoin gpu_path "device/gpu_busy_percent")

/-- The used-VRAM read of read_gpu_data: device/mem_info_vram_used under
the device directory, parsed as u64 (bytes). -/
def readVramUsed (fs : FS) (gpu_path : String) : Except Err ℕ :=
  read_and_parse fs parseU64 "invalid digit found in string"
    (pathJoin gpu_path "device/mem_info_vram_used")

/-- The total-VRAM read of read_gpu_data: device/mem_info_vram_total
under the device directory, parsed as u64 (bytes). -/
def readVramTotal (fs : FS) (gpu_path : String) : Except Err ℕ :=
  read_and_parse fs parseU64 "invalid digit found in string"
    (pathJoin gpu_path "device/mem_info_vram_total")

/-- main.rs, fn read_gpu_data: the six metric reads in program order,
each aborting the record through ? on failure, and the per-metric
formatting of main.rs (truncating integer division for degrees, watts
and the two VRAM fields, format_frequency for the clock, one-decimal
percent for the load). -/
def read_gpu_data (fs : FS) (gpu_path hwmon_dir : String) : Except Err GpuData :=
  match readTemp fs hwmon_dir with
  | .error e => .error e
  | .ok temp_milli =>
    let temperature := toString (Int.tdiv temp_milli 1000) ++ "°C"
    match readFreq fs hwmon_dir with
    | .error e => .error e
    | .ok freq_hz =>
      let core_clock := format_frequency freq_hz
      match readPower fs hwmon_dir with
      | .error e => .error e
      | .ok power_microwatts =>
        let power_usage := toString (power_microwatts / 1000000) ++ " Watts"
        match readLoad fs gpu_path with
        | .error e => .error e
        | .ok load_percent =>
          let gpu_load := fmtFixed 1 load_percent ++ "%"
          match readVramUsed fs gpu_path with
          | .error e => .error e
          | .ok vram_used =>
            match readVramTotal fs gpu_path with
            | .error e => .error e
            | .ok vram_total =>
              .ok { temperature, core_clock, power_usage, gpu_load,
                    vram_used := toString (vram_used / 1024) ++ " MB",
                    vram_total := toString (vram_total / 1024) ++ " MB" }

/-- The JSON object printed by run for one successful record, with the
six fixed keys in their fixed order. -/
def jsonLine (gpu_data : GpuData) : String :=
  "\x7b\"GPU Temperature\": \"" ++ gpu_data.temperature ++
  "\", \"GPU Load\": \"" ++ gpu_data.gpu_load ++
  "\", \"GPU Core Clock\": \"" ++ gpu_data.core_clock ++
  "\", \"GPU Power Usage\": \"" ++ gpu_data.power_usage ++
  "\", \"GPU VRAM Usage\": \"" ++ gpu_data.vram_used ++
  "\", \"GPU VRAM Total\": \"" ++ gpu_data.vram_total ++ "\"\x7d"

/-- The body of one spawned per-device thread in run: locate the hwmon
directory, then read the record.  The threads share no mutable state, so
each is a pure function of the filesystem snapshot and its device path,
and the concurrent run is equivalent to this sequential denotation. -/
def deviceResult (fs : FS) (gpu_path : String) : Except Err GpuData :=
  match find_hwmon_dir fs gpu_path with
  | .error e => .error e
  | .ok hwmon_dir => read_gpu_data fs gpu_path hwmon_dir

/-- The single line run emits for one device when joining its thread:
the JSON record on success, the stderr error line on failure. -/
def deviceLine (fs : FS) (gpu_path : String) : String :=
  match deviceResult fs gpu_path with
  | .ok gpu_data => jsonLine gpu_data
  | .error e => "Error reading GPU data: " ++ errMsg e

/-- main.rs, fn run, denotationally: the error of a failed discovery, or
the list of emitted lines — the informational line when no device was
found, and otherwise one line per device, joined in spawn order. -/
def runLines (fs : FS) : Except Err (List String) :=
  match detect_amd_gpus fs with
  | .error e => .error e
  | .ok amd_gpus =>
    if amd_gpus.isEmpty then .ok ["No AMD GPUs detected."]
    else .ok (amd_gpus.map (deviceLine fs))

/-- main.rs, fn main: exit code 1 when run returns an error, 0 otherwise. -/
def exitCode (fs : FS) : ℕ :=
  match runLines fs with
  | .error _ => 1
  | .ok _ => 0

/-! ## Equation lemmas for the list recursions -/

theorem format_scaled_nil (value : ℚ) : format_scaled value [] = fmtFixed 0 value := rfl

theorem format_scaled_cons (value : ℚ) (sfx : String) (threshold : ℚ)
    (rest : List (String × ℚ)) :
    format_scaled value ((sfx, threshold) :: rest) =
      if threshold ≤ value then fmtFixed 2 (value / threshold) ++ " " ++ sfx
      else format_scaled value rest := rfl

/-! ## C2 -/

/-- C2 (corrected): the universal half of the claim holds — a value
below every threshold of the Memory table (hence below 1, the smallest
threshold) is formatted with zero decimal places and no suffix — but the
claimed instance is wrong: 512 meets the smallest threshold (B, 1), so
format(Memory, 512) is "512.00 B", not "512". -/
theorem c2_memory_below_thresholds :
    (∀ value : ℚ, value < 1 → format_scaled value BYTE_SUFFIXES = fmtFixed 0 value) ∧
    format_units Units.Memory 512 = "512.00 B" := by
  constructor
  · intro value h
    simp only [BYTE_SUFFIXES]
    rw [format_scaled_cons, if_neg (not_le.mpr (h.trans_le (by norm_num))),
        format_scaled_cons, if_neg (not_le.mpr (h.trans_le (by norm_num))),
        format_scaled_cons, if_neg (not_le.mpr (h.trans_le (by norm_num))),
        format_scaled_cons, if_neg (not_le.mpr (h.trans_le (by norm_num))),
        format_scaled_cons, if_neg (not_le.mpr (h.trans_le (by norm_num))),
        format_scaled_nil]
  · with_unfolding_all rfl

/-- C2 counterexample: format(Memory, 512) returns "512.00 B" — with the
B suffix and two decimals — not the bare "512" the claim states. -/
theorem c2_counterexample :
    format_units Units.Memory 512 = "512.00 B" ∧ format_units Units.Memory 512 ≠ "512" := by
  have h : format_units Units.Memory 512 = "512.00 B" := by with_unfolding_all rfl
  exact ⟨h, by rw [h]; decide⟩

/-- C2 witness: the universal half applied at the concrete value 1/2,
which is below every threshold and prints as "0". -/
theorem c2_witness : format_scaled (1/2) BYTE_SUFFIXES = "0" := by
  have h := c2_memory_below_thresholds.1 (1/2) (by norm_num)
  rw [h]; with_unfolding_all rfl

/-! ## C9 -/

/-- In any strictly descending positive suffix table, a value equal to
the threshold at position i is formatted as "1.00" with exactly that
threshold suffix: earlier (larger) thresholds reject it, and the scan
never reaches a smaller one. -/
theorem format_scaled_at_threshold :
    ∀ (table : List (String × ℚ)) (i : ℕ) (hi : i < table.length),
      table.Pairwise (fun a b => b.2 < a.2) → (∀ p ∈ table, 0 < p.2) →
      format_scaled (table.get ⟨i, hi⟩).2 table = "1.00 " ++ (table.get ⟨i, hi⟩).1 := by
  intro table
  induction table with
  | nil => intro i hi _ _; exact absurd hi (by simp)
  | cons head rest ih =>
    intro i hi hpair hpos
    obtain ⟨hhead, htail⟩ := List.pairwise_cons.mp hpair
    obtain ⟨s, t⟩ := head
    match i with
    | 0 =>
      have ht : 0 < t := hpos (s, t) (List.mem_cons_self _ _)
      show format_scaled t ((s, t) :: rest) = "1.00 " ++ s
      rw [format_scaled_cons, if_pos le_rfl, div_self (ne_of_gt ht),
        show fmtFixed 2 1 = "1.00" from by with_unfolding_all rfl]
      rfl
    | j + 1 =>
      have hj : j < rest.length := Nat.lt_of_succ_lt_succ (by simpa using hi)
      have hvlt : (rest.get ⟨j, hj⟩).2 < t := hhead _ (List.get_mem _ _ _)
      show format_scaled (rest.get ⟨j, hj⟩).2 ((s, t) :: rest) = _
      rw [format_scaled_cons, if_neg (not_le.mpr hvlt)]
      exact ih j hj htail (fun p hp => hpos p (List.mem_cons_of_mem _ hp))

/-- C9 (confirmed): in scaled-magnitude formatting over any strictly
descending positive table — the two tables of usage.rs are such — a
value exactly equal to a threshold selects that threshold suffix and
never a smaller one, printing as "1.00" with it; in particular
format(Memory, 1024) = "1.00 KB". -/
theorem c9_threshold_tiebreak :
    (∀ (table : List (String × ℚ)) (i : ℕ) (hi : i < table.length),
      table.Pairwise (fun a b => b.2 < a.2) → (∀ p ∈ table, 0 < p.2) →
      format_scaled (table.get ⟨i, hi⟩).2 table = "1.00 " ++ (table.get ⟨i, hi⟩).1) ∧
    format_units Units.Memory 1024 = "1.00 KB" :=
  ⟨format_scaled_at_threshold, by with_unfolding_all rfl⟩

/-- C9 witness: the general tie-break statement applied to the byte
table at index 3 (the KB row), giving format_scaled 1024 = "1.00 KB". -/
theorem c9_witness : format_scaled 1024 BYTE_SUFFIXES = "1.00 KB" := by
  have h := c9_threshold_tiebreak.1 BYTE_SUFFIXES 3 (by simp [BYTE_SUFFIXES])
    (by simp only [BYTE_SUFFIXES, List.pairwise_cons, List.mem_cons]; norm_num)
    (by intro p hp; fin_cases hp <;> norm_num)
  exact h

/-! ## C10 -/

/-- The scaling loop of format_frequency can raise the unit index by at
most its fuel. -/
theorem format_frequency_loop_idx_le (fuel : ℕ) : ∀ (v : ℚ) (i : ℕ),
    (format_frequency_loop fuel v i).2 ≤ i + fuel := by
  induction fuel with
  | zero => intro v i; simp [format_frequency_loop]
  | succ n ih =>
    intro v i
    simp only [format_frequency_loop]
    split
    · exact le_trans (ih _ _) (by omega)
    · omega

/-- C10 (confirmed): format_frequency is total on every u64 input; its
loop performs at most three divisions (the final unit index is at most
3, the last table slot), and the output is a rounded integer followed by
exactly one suffix from the Hz / KHz / MHz / GHz table. -/
theorem c10_format_frequency_total (hz : ℕ) (_hlt : hz < 2 ^ 64) :
    (format_frequency_loop (freqUnits.length - 1) (hz : ℚ) 0).2 ≤ 3 ∧
    ∃ (n : ℕ) (sfx : String), sfx ∈ freqUnits ∧
      format_frequency hz = toString n ++ " " ++ sfx := by
  have h3 : (format_frequency_loop (freqUnits.length - 1) (hz : ℚ) 0).2 ≤ 3 := by
    simpa [freqUnits] using format_frequency_loop_idx_le (freqUnits.length - 1) (hz : ℚ) 0
  set r := format_frequency_loop (freqUnits.length - 1) (hz : ℚ) 0 with hrdef
  refine ⟨h3, u64cast (roundAwayFromZero r.1), freqUnits.getD r.2 "", ?_, rfl⟩
  have h4 : r.2 = 0 ∨ r.2 = 1 ∨ r.2 = 2 ∨ r.2 = 3 := by omega
  rcases h4 with h | h | h | h <;> rw [h] <;> decide

/-- C10 witness: the theorem applied at the 64-bit input 2500000000. -/
theorem c10_witness : 2500000000 < 2 ^ 64 ∧
    ((format_frequency_loop (freqUnits.length - 1) ((2500000000 : ℕ) : ℚ) 0).2 ≤ 3 ∧
     ∃ (n : ℕ) (sfx : String), sfx ∈ freqUnits ∧
       format_frequency 2500000000 = toString n ++ " " ++ sfx) :=
  ⟨by norm_num, c10_format_frequency_total 2500000000 (by norm_num)⟩

/-! ## C8 -/

/-- C8 (confirmed): the process exit code is 0 exactly when discovery
returned a device list — failing devices and the empty list included,
since run only propagates the discovery error — and nonzero exactly when
discovery itself returned an error. -/
theorem c8_exit_code (fs : FS) :
    (exitCode fs = 0 ↔ ∃ amd_gpus, detect_amd_gpus fs = .ok amd_gpus) ∧
    (exitCode fs ≠ 0 ↔ ∃ e, detect_amd_gpus fs = .error e) := by
  cases h : detect_amd_gpus fs with
  | error e => simp [exitCode, runLines, h]
  | ok amd_gpus => rcases amd_gpus with _ | ⟨p, ps⟩ <;> simp [exitCode, runLines, h]

/-! ## C4 -/

/-- C4 (confirmed): when the device-class listing succeeds and every
entry is retrieved, discovery returns, without error, exactly those
entry paths whose name starts with card and whose device/vendor file is
readable with trimmed content 0x1002, in listing order; entries failing
either test — an unreadable or absent vendor file included — are
silently dropped. -/
theorem c4_discovery_filter (fs : FS) (entries : List (Except IOKind String))
    (hls : fs.read_dir drmDir = .ok entries)
    (hok : ∀ ent ∈ entries, ∃ name, ent = Except.ok name) :
    detect_amd_gpus fs = .ok (entries.filterMap fun ent =>
      match ent with
      | .ok name =>
        if name.startsWith "card" && vendorOk fs (pathJoin drmDir name)
        then some (pathJoin drmDir name) else none
      | .error _ => none) := by
  have key : ∀ l : List (Except IOKind String),
      (∀ ent ∈ l, ∃ name, ent = Except.ok name) →
      detectEntries fs l = .ok (l.filterMap fun ent =>
        match ent with
        | .ok name =>
          if name.startsWith "card" && vendorOk fs (pathJoin drmDir name)
          then some (pathJoin drmDir name) else none
        | .error _ => none) := by
    intro l
    induction l with
    | nil => intro _; rfl
    | cons ent rest ih =>
      intro hall
      obtain ⟨name, rfl⟩ := hall ent (List.mem_cons_self _ _)
      have ih2 := ih (fun e he => hall e (List.mem_cons_of_mem _ he))
      simp only [detectEntries, ih2, List.filterMap_cons]
      cases hkeep : name.startsWith "card" && vendorOk fs (pathJoin drmDir name) <;>
        simp [hkeep]
  unfold detect_amd_gpus
  rw [hls]
  exact key entries hok

/-- A snapshot with four device-class entries: an AMD card, a card of
another vendor, a card whose vendor file is unreadable, and a non-card
entry with an AMD vendor file. -/
def mixedFS : FS :=
  { dirListings := [("/sys/class/drm",
      .ok [.ok "card0", .ok "card1", .ok "card2", .ok "renderD128"])],
    fileContents := [
      ("/sys/class/drm/card0/device/vendor", .ok "0x1002\n"),
      ("/sys/class/drm/card1/device/vendor", .ok "0x10de\n"),
      ("/sys/class/drm/card2/device/vendor", .error .permissionDenied),
      ("/sys/class/drm/renderD128/device/vendor", .ok "0x1002\n")],
    dirPaths := [], existingPaths := [] }

/-- C4 witness: the filter theorem applied to the mixed snapshot keeps
exactly the AMD card entry. -/
theorem c4_witness : detect_amd_gpus mixedFS = .ok ["/sys/class/drm/card0"] := by
  have h := c4_discovery_filter mixedFS
    [.ok "card0", .ok "card1", .ok "card2", .ok "renderD128"]
    (by with_unfolding_all rfl)
    (by intro ent hent; fin_cases hent <;> exact ⟨_, rfl⟩)
  exact h.trans (by with_unfolding_all rfl)

/-! ## C6 -/

/-- The entry loop of discovery returns an error exactly when some
listed entry is itself a retrieval error. -/
theorem detectEntries_error_iff (fs : FS) (entries : List (Except IOKind String)) :
    (∃ e, detectEntries fs entries = .error e) ↔ ∃ k, Except.error k ∈ entries := by
  induction entries with
  | nil => simp [detectEntries]
  | cons ent rest ih =>
    cases ent with
    | error k => simp [detectEntries]
    | ok name =>
      constructor
      · rintro ⟨e, he⟩
        cases hr : detectEntries fs rest with
        | error e2 =>
          obtain ⟨k, hk⟩ := ih.mp ⟨e2, hr⟩
          exact ⟨k, List.mem_cons_of_mem _ hk⟩
        | ok l =>
          simp only [detectEntries, hr] at he
          exact absurd he (by simp)
      · rintro ⟨k, hk⟩
        rcases List.mem_cons.mp hk with h | h
        · exact absurd h (by simp)
        · obtain ⟨e, he⟩ := ih.mpr ⟨k, h⟩
          exact ⟨e, by simp only [detectEntries, he]⟩

/-- C6 (corrected): discovery fails not only when the top-level listing
call fails, but also when retrieving an individual directory entry fails
(the per-entry ? in its loop); it returns an error exactly when one of
those two happens, and nothing else — vendor checks in particular —
can make it fail. -/
theorem c6_discovery_error_iff (fs : FS) :
    (∃ e, detect_amd_gpus fs = .error e) ↔
      ((∃ k, fs.read_dir drmDir = .error k) ∨
       (∃ entries, fs.read_dir drmDir = .ok entries ∧ ∃ k, Except.error k ∈ entries)) := by
  unfold detect_amd_gpus
  cases h : fs.read_dir drmDir with
  | error k => simp [h]
  | ok entries => simp [h, detectEntries_error_iff]

/-- A snapshot where the device-class directory lists fine but its
second entry fails to be retrieved. -/
def entryFailFS : FS :=
  { dirListings := [("/sys/class/drm", .ok [.ok "card0", .error .otherError])],
    fileContents := [("/sys/class/drm/card0/device/vendor", .ok "0x1002\n")],
    dirPaths := [], existingPaths := [] }

/-- C6 counterexample: the top-level listing succeeds, yet discovery
returns an IO error, propagated from the failed entry retrieval — so
an unlistable top-level directory is not the only error condition. -/
theorem c6_counterexample :
    entryFailFS.read_dir drmDir = .ok [.ok "card0", .error .otherError] ∧
    detect_amd_gpus entryFailFS = .error (.ioError .otherError) :=
  ⟨by with_unfolding_all rfl, by with_unfolding_all rfl⟩

/-! ## C7 -/

/-- The probe loop of find_hwmon_dir over fully retrieved entries is a
first-match search: the first name whose directory qualifies wins, and
an exhausted listing yields the GpuInfoError. -/
theorem findEntries_names (fs : FS) (hwmon_base : String) :
    ∀ names : List String,
      findEntries fs hwmon_base (names.map Except.ok) =
        match names.find? (fun n => hwmonQualifies fs (pathJoin hwmon_base n)) with
        | some n => .ok (pathJoin hwmon_base n)
        | none => .error (.gpuInfoError "No hwmon directory found") := by
  intro names
  induction names with
  | nil => rfl
  | cons n rest ih =>
    cases hq : hwmonQualifies fs (pathJoin hwmon_base n) with
    | true =>
      have hf : List.find? (fun m => hwmonQualifies fs (pathJoin hwmon_base m))
          (n :: rest) = some n := List.find?_cons_of_pos _ (by simpa using hq)
      simp [List.map_cons, findEntries, hq, hf]
    | false =>
      have hf : List.find? (fun m => hwmonQualifies fs (pathJoin hwmon_base m))
          (n :: rest) =
          List.find? (fun m => hwmonQualifies fs (pathJoin hwmon_base m)) rest :=
        List.find?_cons_of_neg _ (by simpa using hq)
      simp [List.map_cons, findEntries, hq, hf, ih]

/-- C7 (corrected): given a device path, the locator propagates the
underlying IO error — whatever its kind — when the hwmon listing call
fails, and over a fully retrieved listing it returns the first
subdirectory containing temp1_input, failing with the NotFound-style
GpuInfoError exactly when no listed name qualifies. -/
theorem c7_find_hwmon_characterization (fs : FS) (gpu_path : String) :
    (∀ k, fs.read_dir (pathJoin gpu_path "device/hwmon") = .error k →
      find_hwmon_dir fs gpu_path = .error (.ioError k)) ∧
    (∀ names : List String,
      fs.read_dir (pathJoin gpu_path "device/hwmon") = .ok (names.map Except.ok) →
      find_hwmon_dir fs gpu_path =
        match names.find? (fun n =>
            hwmonQualifies fs (pathJoin (pathJoin gpu_path "device/hwmon") n)) with
        | some n => .ok (pathJoin (pathJoin gpu_path "device/hwmon") n)
        | none => .error (.gpuInfoError "No hwmon directory found")) := by
  constructor
  · intro k hk
    simp only [find_hwmon_dir, hk]
  · intro names hn
    simp only [find_hwmon_dir, hn]
    exact findEntries_names fs _ names

/-- A snapshot whose hwmon directory exists but cannot be listed for a
permission reason. -/
def lockedHwmonFS : FS :=
  { dirListings := [("/sys/class/drm/card0/device/hwmon", .error .permissionDenied)],
    fileContents := [], dirPaths := [], existingPaths := [] }

/-- C7 counterexample: with the hwmon directory unlistable for a
permission reason, the locator fails with the propagated permission
error — neither the GpuInfoError of the no-qualifier case nor a
NotFound IO error — refuting the claimed equivalence of failing with a
NotFound error and (no qualifier or unlistable hwmon directory). -/
theorem c7_counterexample :
    find_hwmon_dir lockedHwmonFS "/sys/class/drm/card0" =
      .error (.ioError .permissionDenied) ∧
    find_hwmon_dir lockedHwmonFS "/sys/class/drm/card0" ≠
      .error (.gpuInfoError "No hwmon directory found") ∧
    find_hwmon_dir lockedHwmonFS "/sys/class/drm/card0" ≠
      .error (.ioError .notFound) := by
  have h : find_hwmon_dir lockedHwmonFS "/sys/class/drm/card0" =
      .error (.ioError .permissionDenied) := by with_unfolding_all rfl
  exact ⟨h, by rw [h]; simp, by rw [h]; simp⟩

/-- A snapshot with two hwmon subdirectories, of which only the second
contains temp1_input. -/
def hwmonProbeFS : FS :=
  { dirListings := [("/sys/class/drm/card0/device/hwmon",
      .ok [.ok "hwmon0", .ok "hwmon1"])],
    fileContents := [],
    dirPaths := ["/sys/class/drm/card0/device/hwmon/hwmon0",
      "/sys/class/drm/card0/device/hwmon/hwmon1"],
    existingPaths := ["/sys/class/drm/card0/device/hwmon/hwmon1/temp1_input"] }

/-- C7 witness: the characterization applied to the probe snapshot
returns the first qualifying subdirectory, skipping the one without a
temperature sensor file. -/
theorem c7_witness :
    find_hwmon_dir hwmonProbeFS "/sys/class/drm/card0" =
      .ok "/sys/class/drm/card0/device/hwmon/hwmon1" := by
  have h := (c7_find_hwmon_characterization hwmonProbeFS "/sys/class/drm/card0").2
    ["hwmon0", "hwmon1"] (by with_unfolding_all rfl)
  exact h.trans (by with_unfolding_all rfl)

/-! ## C1 -/

/-- An error line never coincides with a serialized record: the former
begins with an E, the latter with an opening brace. -/
theorem error_line_ne_json (m : String) (gpu_data : GpuData) :
    "Error reading GPU data: " ++ m ≠ jsonLine gpu_data := by
  intro hc
  have h1 : ("Error reading GPU data: " ++ m).data.head? = some 'E' := by
    rw [String.data_append]; rfl
  have h2 : (jsonLine gpu_data).data.head? = some '\x7b' := by
    simp only [jsonLine, String.data_append]; rfl
  rw [hc, h2] at h1
  exact absurd h1 (by decide)

/-- C1 (confirmed): for a device whose sensor directory was located, if
any one of the six metric reads fails — the file missing or unreadable,
or its trimmed content failing to parse at the expected numeric type —
then the device produces no record: its pipeline result is an error, and
its single output line is the error line, never a serialized record. -/
theorem c1_metric_failure_discards_record (fs : FS) (gpu_path hwmon_dir : String)
    (hhw : find_hwmon_dir fs gpu_path = .ok hwmon_dir)
    (hfail :
      (∃ e, readTemp fs hwmon_dir = .error e) ∨
      (∃ e, readFreq fs hwmon_dir = .error e) ∨
      (∃ e, readPower fs hwmon_dir = .error e) ∨
      (∃ e, readLoad fs gpu_path = .error e) ∨
      (∃ e, readVramUsed fs gpu_path = .error e) ∨
      (∃ e, readVramTotal fs gpu_path = .error e)) :
    ∃ e, deviceResult fs gpu_path = .error e ∧
      deviceLine fs gpu_path = "Error reading GPU data: " ++ errMsg e ∧
      ∀ gpu_data : GpuData, deviceLine fs gpu_path ≠ jsonLine gpu_data := by
  have herr : ∃ e, read_gpu_data fs gpu_path hwmon_dir = .error e := by
    cases h1 : readTemp fs hwmon_dir with
    | error e => exact ⟨e, by simp [read_gpu_data, h1]⟩
    | ok t =>
    cases h2 : readFreq fs hwmon_dir with
    | error e => exact ⟨e, by simp [read_gpu_data, h1, h2]⟩
    | ok f =>
    cases h3 : readPower fs hwmon_dir with
    | error e => exact ⟨e, by simp [read_gpu_data, h1, h2, h3]⟩
    | ok p =>
    cases h4 : readLoad fs gpu_path with
    | error e => exact ⟨e, by simp [read_gpu_data, h1, h2, h3, h4]⟩
    | ok l =>
    cases h5 : readVramUsed fs gpu_path with
    | error e => exact ⟨e, by simp [read_gpu_data, h1, h2, h3, h4, h5]⟩
    | ok u =>
    cases h6 : readVramTotal fs gpu_path with
    | error e => exact ⟨e, by simp [read_gpu_data, h1, h2, h3, h4, h5, h6]⟩
    | ok tt =>
      exfalso
      rcases hfail with ⟨e, he⟩ | ⟨e, he⟩ | ⟨e, he⟩ | ⟨e, he⟩ | ⟨e, he⟩ | ⟨e, he⟩
      · rw [h1] at he; simp at he
      · rw [h2] at he; simp at he
      · rw [h3] at he; simp at he
      · rw [h4] at he; simp at he
      · rw [h5] at he; simp at he
      · rw [h6] at he; simp at he
  obtain ⟨e, he⟩ := herr
  have hdev : deviceResult fs gpu_path = .error e := by
    simp [deviceResult, hhw, he]
  have hline : deviceLine fs gpu_path = "Error reading GPU data: " ++ errMsg e := by
    simp [deviceLine, hdev]
  refine ⟨e, hdev, hline, ?_⟩
  intro gpu_data
  rw [hline]
  exact error_line_ne_json (errMsg e) gpu_data

/-- A snapshot where the sensor directory is located (temp1_input
exists) but the temperature file is unreadable, failing the first
metric read. -/
def brokenFS : FS :=
  { dirListings := [("/sys/class/drm/card0/device/hwmon", .ok [.ok "hwmon0"])],
    fileContents := [],
    dirPaths := ["/sys/class/drm/card0/device/hwmon/hwmon0"],
    existingPaths := ["/sys/class/drm/card0/device/hwmon/hwmon0/temp1_input"] }

/-- C1 witness: the theorem applied to the snapshot with the unreadable
temperature file. -/
theorem c1_witness :
    ∃ e, deviceResult brokenFS "/sys/class/drm/card0" = .error e ∧
      deviceLine brokenFS "/sys/class/drm/card0" = "Error reading GPU data: " ++ errMsg e ∧
      ∀ gpu_data : GpuData,
        deviceLine brokenFS "/sys/class/drm/card0" ≠ jsonLine gpu_data :=
  c1_metric_failure_discards_record brokenFS "/sys/class/drm/card0"
    "/sys/class/drm/card0/device/hwmon/hwmon0"
    (by with_unfolding_all rfl)
    (Or.inl ⟨.ioError .notFound, by with_unfolding_all rfl⟩)

/-! ## C5 -/

/-- C5 (confirmed): when discovery returns a non-empty device list, run
emits exactly one line per discovered device — the record line or the
error line — so the line count equals the device count, and line i
belongs to device i of the discovery order (the spawn order, in which
the aggregator joins the threads). -/
theorem c5_one_line_per_device (fs : FS) (amd_gpus : List String)
    (hdet : detect_amd_gpus fs = .ok amd_gpus) (hne : amd_gpus ≠ []) :
    ∃ lines : List String, runLines fs = .ok lines ∧
      lines.length = amd_gpus.length ∧
      ∀ (i : ℕ) (hi : i < amd_gpus.length),
        lines.get? i = some (deviceLine fs (amd_gpus.get ⟨i, hi⟩)) := by
  refine ⟨amd_gpus.map (deviceLine fs), ?_, List.length_map _ _, ?_⟩
  · rcases amd_gpus with _ | ⟨p, ps⟩
    · exact absurd rfl hne
    · simp [runLines, hdet]
  · intro i hi
    rw [List.get?_map, List.get?_eq_get hi]
    rfl

/-- A two-device snapshot: card0 is fully healthy, card1 has an empty
hwmon directory (its pipeline fails), and a renderD128 entry is excluded
by the name filter. -/
def sampleFS : FS :=
  { dirListings := [
      ("/sys/class/drm", .ok [.ok "card0", .ok "card1", .ok "renderD128"]),
      ("/sys/class/drm/card0/device/hwmon", .ok [.ok "hwmon0"]),
      ("/sys/class/drm/card1/device/hwmon", .ok [])],
    fileContents := [
      ("/sys/class/drm/card0/device/vendor", .ok "0x1002\n"),
      ("/sys/class/drm/card1/device/vendor", .ok "0x1002\n"),
      ("/sys/class/drm/renderD128/device/vendor", .ok "0x1002\n"),
      ("/sys/class/drm/card0/device/hwmon/hwmon0/temp1_input", .ok "63400\n"),
      ("/sys/class/drm/card0/device/hwmon/hwmon0/freq1_input", .ok "2500000000\n"),
      ("/sys/class/drm/card0/device/hwmon/hwmon0/power1_average", .ok "142000000\n"),
      ("/sys/class/drm/card0/device/gpu_busy_percent", .ok "27.3\n"),
      ("/sys/class/drm/card0/device/mem_info_vram_used", .ok "8589934592\n"),
      ("/sys/class/drm/card0/device/mem_info_vram_total", .ok "17179869184\n")],
    dirPaths := ["/sys/class/drm/card0/device/hwmon/hwmon0"],
    existingPaths := ["/sys/class/drm/card0/device/hwmon/hwmon0/temp1_input"] }

example : detect_amd_gpus sampleFS =
    .ok ["/sys/class/drm/card0", "/sys/class/drm/card1"] := by with_unfolding_all rfl

/-- C5 witness: the theorem applied to the two-device snapshot, one
device of which fails. -/
theorem c5_witness :
    ∃ lines : List String, runLines sampleFS = .ok lines ∧
      lines.length = (["/sys/class/drm/card0", "/sys/class/drm/card1"] : List String).length ∧
      ∀ (i : ℕ)
        (hi : i < (["/sys/class/drm/card0", "/sys/class/drm/card1"] : List String).length),
        lines.get? i = some (deviceLine sampleFS
          ((["/sys/class/drm/card0", "/sys/class/drm/card1"] : List String).get ⟨i, hi⟩)) :=
  c5_one_line_per_device sampleFS ["/sys/class/drm/card0", "/sys/class/drm/card1"]
    (by with_unfolding_all rfl) (by simp)

/-! ## C3 -/

/-- C3 (corrected): the record fields read_gpu_data emits are produced
by the per-metric formatters of main.rs — truncated integer degrees with
a bare °C suffix, format_frequency for the clock, integer watts with a
Watts suffix, one-decimal percent, and integer division of bytes by 1024
with an MB suffix — not by format_units of usage.rs. -/
theorem c3_pipeline_formatting (fs : FS) (gpu_path hwmon_dir : String)
    (t : ℤ) (f p u tt : ℕ) (l : ℚ)
    (h1 : readTemp fs hwmon_dir = .ok t) (h2 : readFreq fs hwmon_dir = .ok f)
    (h3 : readPower fs hwmon_dir = .ok p) (h4 : readLoad fs gpu_path = .ok l)
    (h5 : readVramUsed fs gpu_path = .ok u) (h6 : readVramTotal fs gpu_path = .ok tt) :
    read_gpu_data fs gpu_path hwmon_dir = .ok
      { temperature := toString (Int.tdiv t 1000) ++ "°C"
        core_clock := format_frequency f
        power_usage := toString (p / 1000000) ++ " Watts"
        gpu_load := fmtFixed 1 l ++ "%"
        vram_used := toString (u / 1024) ++ " MB"
        vram_total := toString (tt / 1024) ++ " MB" } := by
  simp [read_gpu_data, h1, h2, h3, h4, h5, h6]

/-- The record the healthy sample device produces. -/
def sampleRecord : GpuData :=
  { temperature := "63°C", core_clock := "3 GHz", power_usage := "142 Watts",
    gpu_load := "27.3%", vram_used := "8388608 MB", vram_total := "16777216 MB" }

/-- C3 counterexample: the emitted temperature string of the pipeline at
63400 millidegrees is "63°C", while the Unit Formatter output for the
same natural-unit value is "63.4 °C" — the pipeline formatting is not
the function format(unit, value). -/
theorem c3_counterexample :
    deviceResult sampleFS "/sys/class/drm/card0" = .ok sampleRecord ∧
    sampleRecord.temperature = "63°C" ∧
    format_units Units.Temperature (63400 / 1000 : ℚ) = "63.4 °C" ∧
    sampleRecord.temperature ≠ format_units Units.Temperature (63400 / 1000 : ℚ) := by
  have hf : format_units Units.Temperature (63400 / 1000 : ℚ) = "63.4 °C" := by
    with_unfolding_all rfl
  refine ⟨by with_unfolding_all rfl, rfl, hf, ?_⟩
  rw [hf]; decide

/-- C3 witness: the per-metric formatting theorem applied to the healthy
sample device. -/
theorem c3_witness :
    read_gpu_data sampleFS "/sys/class/drm/card0"
      "/sys/class/drm/card0/device/hwmon/hwmon0" = .ok
      { temperature := toString (Int.tdiv 63400 1000) ++ "°C"
        core_clock := format_frequency 2500000000
        power_usage := toString ((142000000 : ℕ) / 1000000) ++ " Watts"
        gpu_load := fmtFixed 1 (273/10) ++ "%"
        vram_used := toString ((8589934592 : ℕ) / 1024) ++ " MB"
        vram_total := toString ((17179869184 : ℕ) / 1024) ++ " MB" } :=
  c3_pipeline_formatting sampleFS "/sys/class/drm/card0"
    "/sys/class/drm/card0/device/hwmon/hwmon0"
    63400 2500000000 142000000 8589934592 17179869184 (273/10)
    (by with_unfolding_all rfl) (by with_unfolding_all rfl)
    (by with_unfolding_all rfl) (by with_unfolding_all rfl)
    (by with_unfolding_all rfl) (by with_unfolding_all rfl)

end AmdGpu
